import Mathlib

/-!
A shallow embedding of the element-web bootstrap shell
(`src/vector/index.ts`) and proofs about its startup orchestration:
the browser feature probe `checkBrowserFeatures`, the settle helper
`settled`, the bootstrap orchestrator `start`, and the fatal-error
presenter attached via `start().catch`.

Asynchronous one-shot futures are modelled by their settled outcome
(`Except JsError α`); the orchestrator is a pure function from the
environment it observes to the ordered trace of its side effects plus
a terminal outcome.
-/

/-- The `error.err` field carried by a config-load rejection: either a
`SyntaxError` (with its `message` string; the empty string models a
falsy or absent message) or some other error value. -/
inductive SubErr where
  | syn (message : String)
  | other
  deriving DecidableEq, Repr

/-- A JavaScript error value, restricted to the fields the bootstrap
code inspects: the optional `err` sub-error (checked with
`instanceof SyntaxError` and read for `.message`) and the optional
`translatedMessage` attached by the i18n machinery. -/
structure JsError where
  err : Option SubErr := none
  translatedMessage : Option String := none
  deriving DecidableEq, Repr

/-- One diagnostic line written by `checkBrowserFeatures`; the three
constructors correspond to the three distinct `console.error` format
strings in the source (missing Modernizr global, `undefined` test
result, `false` test result). -/
inductive FeatLog where
  | libraryMissing
  | misconfigured (key : String)
  | missingFeature (key : String)
  deriving DecidableEq, Repr

/-- The `for` loop of `checkBrowserFeatures`: iterates the registered
feature keys in order carrying the `featureComplete` flag; an
`undefined` test result is logged and returns `false` immediately, a
`false` result is logged and clears the flag without stopping. -/
def checkFeatureList : List (String × Option Bool) → Bool → Bool × List FeatLog
  | [], featureComplete => (featureComplete, [])
  | (key, none) :: _, _ => (false, [FeatLog.misconfigured key])
  | (key, some false) :: rest, _ =>
    ((checkFeatureList rest false).1,
      FeatLog.missingFeature key :: (checkFeatureList rest false).2)
  | (_, some true) :: rest, featureComplete => checkFeatureList rest featureComplete

/-- `checkBrowserFeatures` from `src/vector/index.ts`. The argument is
the `window.Modernizr` mapping after the three custom `addTest`
registrations, as a key/result list in registration order (`none`
models a missing Modernizr global; an entry value of `none` models an
`undefined` test result). Returns the verdict and the diagnostics in
the order they are logged. -/
def checkBrowserFeatures : Option (List (String × Option Bool)) → Bool × List FeatLog
  | none => (false, [FeatLog.libraryMissing])
  | some features => checkFeatureList features true

/-- The keys whose registered test evaluated strictly to `false`, in
registration order. -/
def falseKeys (features : List (String × Option Bool)) : List String :=
  (features.filter fun kv => kv.2 == some false).map Prod.fst

/-- `settled` from `src/vector/index.ts`: awaits each already-started
task in list order, catching and `console.error`-logging every
rejection; returns the logged errors in order, paired with the
helper's own (always fulfilled) result. -/
def settled {α : Type} : List (Except JsError α) → List JsError × Except JsError Unit
  | [] => ([], Except.ok ())
  | Except.ok _ :: rest => settled rest
  | Except.error e :: rest => (e :: (settled rest).1, (settled rest).2)

/-- The error of a settled task, if it rejected. -/
def errPart {α : Type} : Except JsError α → Option JsError
  | Except.ok _ => none
  | Except.error e => some e

/-- Whether the character list starts with the pattern. -/
def charsStartWith : List Char → List Char → Bool
  | _, [] => true
  | [], _ :: _ => false
  | c :: cs, p :: ps => c == p && charsStartWith cs ps

/-- Whether the pattern occurs contiguously inside the character list. -/
def charsContain (pat : List Char) : List Char → Bool
  | [] => charsStartWith [] pat
  | c :: cs => charsStartWith (c :: cs) pat || charsContain pat cs

/-- Substring test on strings: models both the literal-alternation
regex tests (`/iPad|iPhone|iPod/`, `/Android/`) and
`String.indexOf(...) !== -1` on `document.cookie`. -/
def strContains (hay pat : String) : Bool := charsContain pat.toList hay.toList

/-- JS truthiness of an optional string value (`undefined` and the
empty string are falsy). -/
def truthyOpt : Option String → Bool
  | none => false
  | some s => !s.isEmpty

/-- JS `a || b` for an optional string `a` with default `b`. -/
def jsOrDefault : Option String → String → String
  | none, d => d
  | some s, d => if s.isEmpty then d else s

/-- The parsed fragment parameter mapping (`fragparts.params`): the
`client_secret` entry (absent, or present with a possibly empty
value), plus the remaining entries; the whole mapping is what `start`
passes to `loadApp`. -/
structure Params where
  client_secret : Option String := none
  rest : List (String × String) := []
  deriving DecidableEq, Repr

/-- Result of `parseQsFromFragment(window.location)`: the parameter
mapping and the routing location string. -/
structure FragParts where
  params : Params := {}
  location : String := ""
  deriving DecidableEq, Repr

/-- One observable side effect of a bootstrap run, in the order the
orchestrator performs them: `console` diagnostics, loader
invocations, the mobile redirect, storage writes, and the two error
surfaces. -/
inductive Event where
  | settledLog (e : JsError)
  | redirect (href : String)
  | invokeLoadOlm
  | invokePreparePlatform
  | invokeLoadConfig
  | invokeSetupLogStorage
  | invokeLoadLanguage
  | invokeLoadTheme
  | invokeLoadSkin
  | logBrowserMissingFeatures
  | showIncompatibleBrowser
  | setAcceptsUnsupportedBrowser
  | logUserAccepts
  | showError (title : String) (messages : List String)
  | invokeLoadApp (params : Params)
  | outerLog (e : JsError)
  deriving DecidableEq, Repr

/-- The environment a single bootstrap run observes: the Modernizr
state, the browser globals `start` reads, whether the dynamic import
of `./init` succeeds, whether the user ever confirms on the
incompatible-browser surface, and the settled outcome of every
one-shot future the orchestrator can await. -/
structure Env where
  modernizrFeatures : Option (List (String × Option Bool)) := some []
  initImportOk : Bool := true
  initImportErr : JsError := {}
  rageshakeResult : Except JsError Unit := Except.ok ()
  userAgent : String := ""
  msStream : Bool := false
  cookie : String := ""
  fragparts : FragParts := {}
  hasLocalStorage : Bool := true
  storedAck : Option String := none
  userConfirms : Bool := false
  loadOlmResult : Except JsError Unit := Except.ok ()
  loadConfigResult : Except JsError Unit := Except.ok ()
  setupLogStorageResult : Except JsError Unit := Except.ok ()
  loadLanguageResult : Except JsError Unit := Except.ok ()
  loadThemeResult : Except JsError Unit := Except.ok ()
  loadSkinResult : Except JsError Unit := Except.ok ()
  loadAppResult : Except JsError Unit := Except.ok ()

/-- `const supportedBrowser = checkBrowserFeatures()` evaluated in the
run's environment. -/
def supportedBrowserOf (env : Env) : Bool :=
  (checkBrowserFeatures env.modernizrFeatures).1

/-- `fragparts.params.client_secret || fragparts.location.length > 0`. -/
def preventRedirectOf (fragparts : FragParts) : Bool :=
  truthyOpt fragparts.params.client_secret || fragparts.location.length > 0

/-- `/iPad|iPhone|iPod/.test(navigator.userAgent) && !window.MSStream`. -/
def isIosOf (env : Env) : Bool :=
  (strContains env.userAgent "iPad" || strContains env.userAgent "iPhone"
    || strContains env.userAgent "iPod") && !env.msStream

/-- `/Android/.test(navigator.userAgent)`. -/
def isAndroidOf (env : Env) : Bool := strContains env.userAgent "Android"

/-- Whether the mobile-guide redirect branch fires: no redirect
suppression, a mobile user agent, and no
`element_mobile_redirect_to_guide=false` marker in `document.cookie`. -/
def redirectTaken (env : Env) : Bool :=
  !preventRedirectOf env.fragparts && (isIosOf env || isAndroidOf env)
    && !strContains env.cookie "element_mobile_redirect_to_guide=false"

/-- The compatibility-gate flag: `acceptBrowser` starts as
`supportedBrowser` and, when false and `window.localStorage` exists,
is replaced by `Boolean(localStorage.getItem("mx_accepts_unsupported_browser"))`. -/
def acceptBrowserOf (env : Env) : Bool :=
  if !supportedBrowserOf env && env.hasLocalStorage then truthyOpt env.storedAck
  else supportedBrowserOf env

/-- How the `try` block of `start` ends: a normal `return`, a
suspension forever inside the compatibility-gate promise, or a thrown
error. -/
inductive InnerResult where
  | returned
  | suspended
  | threw (e : JsError)
  deriving DecidableEq, Repr

/-- How `start()` as a whole ends: its promise fulfills, stays
pending on the compatibility gate, or rejects (reaching the fatal
`.catch` handler). -/
inductive Outcome where
  | completed
  | suspended
  | fatal (e : JsError)
  deriving DecidableEq, Repr

/-- The `console.error` lines produced by a `settled(...)` call. -/
def settledLogs {α : Type} (tasks : List (Except JsError α)) : List Event :=
  ((settled tasks).1).map Event.settledLog

/-- Title of the misconfiguration error surface. -/
def misconfiguredTitle : String := "Your Element is misconfigured"

/-- First line of the config syntax-error surface. -/
def invalidJsonLine : String :=
  "Your Element configuration contains invalid JSON. Please correct the problem and reload the page."

/-- Second line of the config syntax-error surface:
`_t("The message from the parser is: %(message)s", {message: error.err.message || _t("Invalid JSON")})`. -/
def parserLine (message : String) : String :=
  "The message from the parser is: " ++ (if message.isEmpty then "Invalid JSON" else message)

/-- Message of the generic config-load error surface. -/
def unableToLoadConfigLine : String :=
  "Unable to load config file: please refresh the page to try again."

/-- Default explanatory line of the outer catch's error surface. -/
def unexpectedErrorLine : String :=
  "Unexpected error preparing the app. See console for details."

/-- The app-load critical path (stages after the config hard-check):
strictly await `loadOlmPromise`, `loadSkinPromise`, `loadThemePromise`
and `loadLanguagePromise` in that order, settle the log-persistence
task, then invoke and await `loadApp(fragparts.params)`. Returns the
events this segment emits. -/
def criticalPath (env : Env) : List Event × InnerResult :=
  match env.loadOlmResult with
  | Except.error e => ([], InnerResult.threw e)
  | Except.ok _ =>
  match env.loadSkinResult with
  | Except.error e => ([], InnerResult.threw e)
  | Except.ok _ =>
  match env.loadThemeResult with
  | Except.error e => ([], InnerResult.threw e)
  | Except.ok _ =>
  match env.loadLanguageResult with
  | Except.error e => ([], InnerResult.threw e)
  | Except.ok _ =>
  match env.loadAppResult with
  | Except.error e =>
    (settledLogs [env.setupLogStorageResult]
      ++ [Event.invokeLoadApp env.fragparts.params], InnerResult.threw e)
  | Except.ok _ =>
    (settledLogs [env.setupLogStorageResult]
      ++ [Event.invokeLoadApp env.fragparts.params], InnerResult.returned)

/-- The config hard-check: `await loadConfigPromise` strictly; a
rejection whose `err` is a `SyntaxError` shows the two-part syntax
surface and returns, any other rejection shows the generic
config-load surface and returns; on success the critical path runs. -/
def configHardCheck (env : Env) : List Event × InnerResult :=
  match env.loadConfigResult with
  | Except.error error =>
    match error.err with
    | some (SubErr.syn m) =>
      ([Event.showError misconfiguredTitle [invalidJsonLine, parserLine m]],
        InnerResult.returned)
    | _ => ([Event.showError unableToLoadConfigLine []], InnerResult.returned)
  | Except.ok _ => criticalPath env

/-- Events of the compatibility gate when the user confirms: the
missing-features log, the incompatible-browser surface, the
acknowledgment write (only if `window.localStorage` exists), and the
acceptance log. -/
def gateConfirmEvents (env : Env) : List Event :=
  [Event.logBrowserMissingFeatures, Event.showIncompatibleBrowser]
    ++ (if env.hasLocalStorage then [Event.setAcceptsUnsupportedBrowser] else [])
    ++ [Event.logUserAccepts]

/-- The compatibility gate and everything after it: if `acceptBrowser`
holds the run proceeds directly to the config hard-check; otherwise
the incompatible-browser surface is shown and the run either resumes
on user confirmation or stays suspended forever. -/
def gatePath (env : Env) : List Event × InnerResult :=
  if acceptBrowserOf env then configHardCheck env
  else if env.userConfirms then
    (gateConfirmEvents env ++ (configHardCheck env).1, (configHardCheck env).2)
  else ([Event.logBrowserMissingFeatures, Event.showIncompatibleBrowser],
    InnerResult.suspended)

/-- Events of the preload stages between the redirect check and the
compatibility gate: start `loadOlm`, call `preparePlatform`, start
and settle `loadConfig`, start `setupLogStorage`, `loadLanguage`,
`loadTheme` and `loadSkin`, then settle skin, theme and language. -/
def preloadEvents (env : Env) : List Event :=
  [Event.invokeLoadOlm, Event.invokePreparePlatform, Event.invokeLoadConfig]
    ++ settledLogs [env.loadConfigResult]
    ++ [Event.invokeSetupLogStorage, Event.invokeLoadLanguage,
        Event.invokeLoadTheme, Event.invokeLoadSkin]
    ++ settledLogs [env.loadSkinResult, env.loadThemeResult, env.loadLanguageResult]

/-- The body of the `try` block of `start`: settle rageshake, run the
redirect check (returning after `window.location.href = "mobile_guide/"`
when it fires), then the preload stages and the compatibility gate. -/
def startInner (env : Env) : List Event × InnerResult :=
  if redirectTaken env then
    (settledLogs [env.rageshakeResult] ++ [Event.redirect "mobile_guide/"],
      InnerResult.returned)
  else
    (settledLogs [env.rageshakeResult] ++ preloadEvents env ++ (gatePath env).1,
      (gatePath env).2)

/-- The events of the `catch` block of `start`: `console.error(err)`
then `showError` with the error's `translatedMessage` when truthy,
else the default line. -/
def catchEvents (e : JsError) : List Event :=
  [Event.outerLog e,
   Event.showError misconfiguredTitle
     [jsOrDefault e.translatedMessage unexpectedErrorLine]]

/-- `start` from `src/vector/index.ts`: when the dynamic import of
`./init` rejects, `start()`'s promise rejects with that error (nothing
of the `try` body runs); otherwise the `try` body runs and any error
it throws is caught once by the `catch` block, which renders the
unexpected-error surface, after which `start()` fulfills. -/
def start (env : Env) : List Event × Outcome :=
  if env.initImportOk then
    match (startInner env).2 with
    | InnerResult.returned => ((startInner env).1, Outcome.completed)
    | InnerResult.suspended => ((startInner env).1, Outcome.suspended)
    | InnerResult.threw e =>
      ((startInner env).1 ++ catchEvents e, Outcome.completed)
  else ([], Outcome.fatal env.initImportErr)

/-- The iframe built by the fatal `.catch` handler: its sandbox
attribute, source document and the styles making it fill the
viewport. -/
structure IframeCfg where
  sandbox : String
  src : String
  width : String
  height : String
  position : String
  top : String
  left : String
  right : String
  bottom : String
  border : String
  deriving DecidableEq, Repr

/-- The fatal-error presenter from `start().catch(...)`: a sandboxed
full-viewport iframe whose source is `static/unable-to-load.html` when
`supportedBrowser` held and `static/incompatible-browser.html`
otherwise. -/
def presentFatal (supportedBrowser : Bool) : IframeCfg :=
  { sandbox := ""
    src := if supportedBrowser then "static/unable-to-load.html"
           else "static/incompatible-browser.html"
    width := "100%"
    height := "100%"
    position := "absolute"
    top := "0"
    left := "0"
    right := "0"
    bottom := "0"
    border := "0" }

/-- The whole top level, `start().catch(err => ...)`: when `start()`'s
promise rejects, the handler logs the error and attaches the fatal
iframe chosen by `supportedBrowser`; otherwise no iframe is created. -/
def startWithCatch (env : Env) : List Event × Option IframeCfg :=
  match (start env).2 with
  | Outcome.fatal e =>
    ((start env).1 ++ [Event.outerLog e],
      some (presentFatal (supportedBrowserOf env)))
  | _ => ((start env).1, none)


/-- A fragment carrying a present but empty client secret, on a mobile
user agent. -/
def envSecretEmpty : Env :=
  { userAgent := "iPhone",
    fragparts := { params := { client_secret := some "" } } }

/-- A fragment carrying a non-empty client secret, on a mobile user
agent. -/
def envSecretSet : Env :=
  { userAgent := "iPhone",
    fragparts := { params := { client_secret := some "xyz" } } }

/-- An unsupported browser whose init-module import fails. -/
def envImportFail : Env :=
  { initImportOk := false, modernizrFeatures := some [("flexbox", some false)] }

/-- An unsupported browser without durable storage whose user confirms
the compatibility risk. -/
def envNoStorage : Env :=
  { modernizrFeatures := some [("flexbox", some false)],
    hasLocalStorage := false, userConfirms := true }

/-! ## Helper lemmas -/

theorem settled_eq {α : Type} (tasks : List (Except JsError α)) :
    settled tasks = (tasks.filterMap errPart, Except.ok ()) := by
  induction tasks with
  | nil => rfl
  | cons t rest ih =>
    cases t with
    | ok v => simpa [settled, errPart] using ih
    | error e => simp [settled, errPart, ih]

theorem checkFeatureList_no_undefined
    (features : List (String × Option Bool)) (fc : Bool)
    (h : ∀ kv ∈ features, kv.2 ≠ none) :
    checkFeatureList features fc
      = (fc && features.all (fun kv => kv.2 == some true),
         (falseKeys features).map FeatLog.missingFeature) := by
  induction features generalizing fc with
  | nil => simp [checkFeatureList, falseKeys]
  | cons kv rest ih =>
    obtain ⟨key, ob⟩ := kv
    have hrest : ∀ kv ∈ rest, kv.2 ≠ none := fun kv hkv => h kv (List.mem_cons_of_mem _ hkv)
    cases ob with
    | none => exact absurd rfl (h (key, none) (List.mem_cons_self _ _))
    | some b =>
      cases b with
      | true => simp [checkFeatureList, falseKeys, ih fc hrest]
      | false => simp [checkFeatureList, falseKeys, ih false hrest]

theorem checkFeatureList_stops_at_undefined
    (pre post : List (String × Option Bool)) (key : String) (fc : Bool)
    (h : ∀ kv ∈ pre, kv.2 ≠ none) :
    checkFeatureList (pre ++ (key, none) :: post) fc
      = (false, (falseKeys pre).map FeatLog.missingFeature
          ++ [FeatLog.misconfigured key]) := by
  induction pre generalizing fc with
  | nil => simp [checkFeatureList, falseKeys]
  | cons kv rest ih =>
    obtain ⟨k, ob⟩ := kv
    have hrest : ∀ kv ∈ rest, kv.2 ≠ none := fun kv hkv => h kv (List.mem_cons_of_mem _ hkv)
    cases ob with
    | none => exact absurd rfl (h (k, none) (List.mem_cons_self _ _))
    | some b =>
      cases b with
      | true => simp [checkFeatureList, falseKeys, ih fc hrest]
      | false => simp [checkFeatureList, falseKeys, ih false hrest]

theorem settledLogs_eq {α : Type} (tasks : List (Except JsError α)) :
    settledLogs tasks = (tasks.filterMap errPart).map Event.settledLog := by
  simp [settledLogs, settled_eq]

theorem mem_settledLogs_shape {α : Type} {tasks : List (Except JsError α)} {x : Event}
    (h : x ∈ settledLogs tasks) : ∃ e, x = Event.settledLog e := by
  rw [settledLogs_eq] at h
  obtain ⟨e, _, rfl⟩ := List.mem_map.mp h
  exact ⟨e, rfl⟩

theorem acceptBrowser_spec (env : Env) :
    acceptBrowserOf env = true ↔
      supportedBrowserOf env = true
      ∨ (env.hasLocalStorage = true ∧ truthyOpt env.storedAck = true) := by
  unfold acceptBrowserOf
  cases h : supportedBrowserOf env <;> cases h2 : env.hasLocalStorage <;> simp

theorem startInner_no_redirect (env : Env) (hred : redirectTaken env = false) :
    startInner env
      = (settledLogs [env.rageshakeResult] ++ preloadEvents env ++ (gatePath env).1,
         (gatePath env).2) := by
  simp [startInner, hred]

theorem start_eq (env : Env) (himp : env.initImportOk = true) :
    start env
      = ((startInner env).1
          ++ (match (startInner env).2 with
              | InnerResult.threw e => catchEvents e
              | _ => []),
         match (startInner env).2 with
         | InnerResult.suspended => Outcome.suspended
         | _ => Outcome.completed) := by
  rw [start, if_pos himp]
  cases (startInner env).2 <;> simp

theorem mem_criticalPath {env : Env} {x : Event} (h : x ∈ (criticalPath env).1) :
    (∃ e, x = Event.settledLog e) ∨ x = Event.invokeLoadApp env.fragparts.params := by
  unfold criticalPath at h
  cases h1 : env.loadOlmResult with
  | error e => simp [h1] at h
  | ok _ =>
  cases h2 : env.loadSkinResult with
  | error e => simp [h1, h2] at h
  | ok _ =>
  cases h3 : env.loadThemeResult with
  | error e => simp [h1, h2, h3] at h
  | ok _ =>
  cases h4 : env.loadLanguageResult with
  | error e => simp [h1, h2, h3, h4] at h
  | ok _ =>
  cases h5 : env.loadAppResult with
  | error e =>
    simp only [h1, h2, h3, h4, h5, List.mem_append, List.mem_singleton] at h
    rcases h with h | h
    · exact Or.inl (mem_settledLogs_shape h)
    · exact Or.inr h
  | ok _ =>
    simp only [h1, h2, h3, h4, h5, List.mem_append, List.mem_singleton] at h
    rcases h with h | h
    · exact Or.inl (mem_settledLogs_shape h)
    · exact Or.inr h

theorem mem_configHardCheck {env : Env} {x : Event} (h : x ∈ (configHardCheck env).1) :
    (∃ t ms, x = Event.showError t ms) ∨ x ∈ (criticalPath env).1 := by
  unfold configHardCheck at h
  cases h1 : env.loadConfigResult with
  | error er =>
    cases h2 : er.err with
    | none => simp only [h1, h2, List.mem_singleton] at h; exact Or.inl ⟨_, _, h⟩
    | some se =>
      cases se with
      | syn m => simp only [h1, h2, List.mem_singleton] at h; exact Or.inl ⟨_, _, h⟩
      | other => simp only [h1, h2, List.mem_singleton] at h; exact Or.inl ⟨_, _, h⟩
  | ok _ => rw [h1] at h; exact Or.inr h

theorem mem_gatePath {env : Env} {x : Event} (h : x ∈ (gatePath env).1) :
    x ∈ (configHardCheck env).1
    ∨ x ∈ gateConfirmEvents env
    ∨ x = Event.logBrowserMissingFeatures
    ∨ x = Event.showIncompatibleBrowser := by
  unfold gatePath at h
  cases hA : acceptBrowserOf env with
  | true => rw [if_pos] at h; exact Or.inl h; simp [hA]
  | false =>
    rw [if_neg (by simp [hA])] at h
    cases hU : env.userConfirms with
    | true =>
      rw [if_pos hU] at h
      rcases List.mem_append.mp h with h | h
      · exact Or.inr (Or.inl h)
      · exact Or.inl h
    | false =>
      rw [if_neg (by simp [hU])] at h
      rcases List.mem_cons.mp h with h | h
      · exact Or.inr (Or.inr (Or.inl h))
      · exact Or.inr (Or.inr (Or.inr (List.mem_singleton.mp h)))

theorem mem_preloadEvents {env : Env} {x : Event} (h : x ∈ preloadEvents env) :
    (∃ e, x = Event.settledLog e)
    ∨ x = Event.invokeLoadOlm ∨ x = Event.invokePreparePlatform
    ∨ x = Event.invokeLoadConfig ∨ x = Event.invokeSetupLogStorage
    ∨ x = Event.invokeLoadLanguage ∨ x = Event.invokeLoadTheme
    ∨ x = Event.invokeLoadSkin := by
  unfold preloadEvents at h
  rcases List.mem_append.mp h with h | h
  · rcases List.mem_append.mp h with h | h
    · rcases List.mem_append.mp h with h | h
      · simp only [List.mem_cons, List.not_mem_nil, or_false] at h
        rcases h with h | h | h
        · exact Or.inr (Or.inl h)
        · exact Or.inr (Or.inr (Or.inl h))
        · exact Or.inr (Or.inr (Or.inr (Or.inl h)))
      · exact Or.inl (mem_settledLogs_shape h)
    · simp only [List.mem_cons, List.not_mem_nil, or_false] at h
      rcases h with h | h | h | h
      · exact Or.inr (Or.inr (Or.inr (Or.inr (Or.inl h))))
      · exact Or.inr (Or.inr (Or.inr (Or.inr (Or.inr (Or.inl h)))))
      · exact Or.inr (Or.inr (Or.inr (Or.inr (Or.inr (Or.inr (Or.inl h))))))
      · exact Or.inr (Or.inr (Or.inr (Or.inr (Or.inr (Or.inr (Or.inr h))))))
  · exact Or.inl (mem_settledLogs_shape h)

theorem mem_startInner {env : Env} {x : Event} (h : x ∈ (startInner env).1) :
    (∃ e, x = Event.settledLog e)
    ∨ x = Event.redirect "mobile_guide/"
    ∨ x ∈ preloadEvents env
    ∨ x ∈ (gatePath env).1 := by
  unfold startInner at h
  cases hr : redirectTaken env with
  | true =>
    rw [if_pos hr] at h
    rcases List.mem_append.mp h with h | h
    · exact Or.inl (mem_settledLogs_shape h)
    · exact Or.inr (Or.inl (List.mem_singleton.mp h))
  | false =>
    rw [if_neg (by simp [hr])] at h
    rcases List.mem_append.mp h with h | h
    · rcases List.mem_append.mp h with h | h
      · exact Or.inl (mem_settledLogs_shape h)
      · exact Or.inr (Or.inr (Or.inl h))
    · exact Or.inr (Or.inr (Or.inr h))

theorem mem_start {env : Env} {x : Event} (h : x ∈ (start env).1) :
    x ∈ (startInner env).1 ∨ ∃ e, x ∈ catchEvents e := by
  unfold start at h
  cases him : env.initImportOk with
  | false => rw [if_neg (by simp [him])] at h; simp at h
  | true =>
    rw [if_pos him] at h
    cases hres : (startInner env).2 with
    | returned => rw [hres] at h; exact Or.inl h
    | suspended => rw [hres] at h; exact Or.inl h
    | threw e =>
      rw [hres] at h
      rcases List.mem_append.mp h with h | h
      · exact Or.inl h
      · exact Or.inr ⟨e, h⟩

theorem mem_catchEvents {e : JsError} {x : Event} (h : x ∈ catchEvents e) :
    x = Event.outerLog e
    ∨ x = Event.showError misconfiguredTitle
        [jsOrDefault e.translatedMessage unexpectedErrorLine] := by
  simpa [catchEvents] using h

/-! ## Claims about the feature probe and the settle helper -/

/-- C2: whenever at least one registered feature key evaluates
strictly to `false` and none to `undefined`, the probe returns
`passed = false`, does not short-circuit, and the missing-feature
diagnostics are exactly the `false`-valued keys in registration
order. -/
theorem claim_C2 (features : List (String × Option Bool))
    (hnone : ∀ kv ∈ features, kv.2 ≠ none)
    (hfalse : ∃ kv ∈ features, kv.2 = some false) :
    checkBrowserFeatures (some features)
      = (false, (falseKeys features).map FeatLog.missingFeature) := by
  rw [checkBrowserFeatures, checkFeatureList_no_undefined features true hnone]
  obtain ⟨kv, hkv, hv⟩ := hfalse
  have : features.all (fun kv => kv.2 == some true) = false := by
    rw [List.all_eq_false]
    exact ⟨kv, hkv, by simp [hv]⟩
  simp [this]

/-- Witness for C2 at a concrete feature mapping. -/
theorem claim_C2_witness :
    checkBrowserFeatures
      (some [("flexbox", some true), ("es6collections", some false),
             ("promiseprototypefinally", some false)])
      = (false, (falseKeys [("flexbox", some true), ("es6collections", some false),
             ("promiseprototypefinally", some false)]).map FeatLog.missingFeature) :=
  claim_C2 _ (by decide) (by decide)

/-- C3: an `undefined` feature result makes the probe return
`passed = false` immediately — later keys are not examined (the result
does not depend on `post`) and the diagnostics are the missing-feature
lines of the earlier keys followed by the distinct misconfiguration
line; an absent detection library yields `passed = false` with its own
distinct diagnostic; the three diagnostic forms are pairwise
distinct. -/
theorem claim_C3 :
    (∀ (pre post : List (String × Option Bool)) (key : String),
      (∀ kv ∈ pre, kv.2 ≠ none) →
      checkBrowserFeatures (some (pre ++ (key, none) :: post))
        = (false, (falseKeys pre).map FeatLog.missingFeature
            ++ [FeatLog.misconfigured key]))
    ∧ checkBrowserFeatures none = (false, [FeatLog.libraryMissing])
    ∧ (∀ k k2 : String, FeatLog.misconfigured k ≠ FeatLog.missingFeature k2
        ∧ FeatLog.libraryMissing ≠ FeatLog.misconfigured k
        ∧ FeatLog.libraryMissing ≠ FeatLog.missingFeature k) := by
  refine ⟨fun pre post key h => ?_, rfl, fun k k2 => by simp⟩
  rw [checkBrowserFeatures, checkFeatureList_stops_at_undefined pre post key true h]

/-- Witness for C3 at a concrete feature mapping (the first conjunct
applied with a nonempty `post`, showing the keys after the
`undefined` one are ignored). -/
theorem claim_C3_witness :
    checkBrowserFeatures
      (some ([("flexbox", some false)] ++ ("regexpdotall", none)
        :: [("objectfromentries", some false)]))
      = (false, (falseKeys [("flexbox", some false)]).map FeatLog.missingFeature
          ++ [FeatLog.misconfigured "regexpdotall"]) :=
  claim_C3.1 [("flexbox", some false)] [("objectfromentries", some false)]
    "regexpdotall" (by decide)

theorem mem_gateConfirmEvents {env : Env} {x : Event} (h : x ∈ gateConfirmEvents env) :
    x = Event.logBrowserMissingFeatures ∨ x = Event.showIncompatibleBrowser
    ∨ x = Event.setAcceptsUnsupportedBrowser ∨ x = Event.logUserAccepts := by
  unfold gateConfirmEvents at h
  cases hls : env.hasLocalStorage <;> simp [hls] at h <;> tauto

/-! ## Claims about the bootstrap orchestrator -/

/-- C1: the app-load handoff happens only when the feature verdict
passed, or the stored acknowledgment flag was set (readable only when
`window.localStorage` exists and the stored value is truthy), or the
user explicitly confirmed on the incompatible-browser surface; by
contraposition, with `acceptBrowser = false` and no confirmation,
`loadApp` is never invoked. -/
theorem claim_C1 (env : Env) (p : Params)
    (h : Event.invokeLoadApp p ∈ (start env).1) :
    supportedBrowserOf env = true
    ∨ (env.hasLocalStorage = true ∧ truthyOpt env.storedAck = true)
    ∨ env.userConfirms = true := by
  have hgate : acceptBrowserOf env = true ∨ env.userConfirms = true := by
    rcases mem_start h with h | ⟨e, h⟩
    · rcases mem_startInner h with ⟨e, he⟩ | he | hp | hg
      · simp at he
      · simp at he
      · rcases mem_preloadEvents hp with ⟨e, he⟩ | he | he | he | he | he | he | he <;>
          simp at he
      · unfold gatePath at hg
        cases hA : acceptBrowserOf env with
        | true => exact Or.inl rfl
        | false =>
          cases hU : env.userConfirms with
          | true => exact Or.inr rfl
          | false =>
            rw [if_neg (by simp [hA]), if_neg (by simp [hU])] at hg
            simp at hg
    · rcases mem_catchEvents h with he | he <;> simp at he
  rcases hgate with hA | hU
  · rcases (acceptBrowser_spec env).mp hA with h1 | h2
    · exact Or.inl h1
    · exact Or.inr (Or.inl h2)
  · exact Or.inr (Or.inr hU)

/-- Witness for C1: a default run (supported browser, all loads
succeed) does invoke `loadApp`. -/
theorem claim_C1_witness :
    supportedBrowserOf {} = true
    ∨ (({} : Env).hasLocalStorage = true ∧ truthyOpt ({} : Env).storedAck = true)
    ∨ ({} : Env).userConfirms = true :=
  claim_C1 {} {} (by decide)

/-- C5: with no client-secret parameter, an empty routing location, a
mobile user agent and no opt-out cookie marker, the orchestrator
redirects to `mobile_guide/` and terminates: none of `loadConfig`,
`loadOlm`, `preparePlatform` or `loadApp` is ever invoked. -/
theorem claim_C5 (env : Env)
    (himp : env.initImportOk = true)
    (hsecret : env.fragparts.params.client_secret = none)
    (hloc : env.fragparts.location = "")
    (hmobile : isIosOf env = true ∨ isAndroidOf env = true)
    (hcookie : strContains env.cookie "element_mobile_redirect_to_guide=false" = false) :
    (start env).1
      = settledLogs [env.rageshakeResult] ++ [Event.redirect "mobile_guide/"]
    ∧ (start env).2 = Outcome.completed
    ∧ Event.invokeLoadConfig ∉ (start env).1
    ∧ Event.invokeLoadOlm ∉ (start env).1
    ∧ Event.invokePreparePlatform ∉ (start env).1
    ∧ (∀ p, Event.invokeLoadApp p ∉ (start env).1) := by
  have hred : redirectTaken env = true := by
    unfold redirectTaken preventRedirectOf
    rcases hmobile with hm | hm <;> simp [hsecret, hloc, truthyOpt, hm, hcookie]
  have hinner : startInner env
      = (settledLogs [env.rageshakeResult] ++ [Event.redirect "mobile_guide/"],
         InnerResult.returned) := by
    simp [startInner, hred]
  have htr : start env
      = (settledLogs [env.rageshakeResult] ++ [Event.redirect "mobile_guide/"],
         Outcome.completed) := by
    rw [start_eq env himp, hinner]
    simp
  have hnot : ∀ x : Event, (∀ e, x ≠ Event.settledLog e) →
      x ≠ Event.redirect "mobile_guide/" → x ∉ (start env).1 := by
    intro x hx1 hx2 hmem
    rw [htr] at hmem
    rcases List.mem_append.mp hmem with hmem | hmem
    · obtain ⟨e, he⟩ := mem_settledLogs_shape hmem
      exact hx1 e he
    · exact hx2 (List.mem_singleton.mp hmem)
  exact ⟨by rw [htr], by rw [htr], hnot _ (by simp) (by simp),
    hnot _ (by simp) (by simp), hnot _ (by simp) (by simp),
    fun p => hnot _ (by simp) (by simp)⟩

/-- Witness for C5: an iPhone user agent with an empty fragment and no
cookies. -/
theorem claim_C5_witness :
    (start { userAgent := "iPhone" }).1
      = settledLogs [Env.rageshakeResult { userAgent := "iPhone" }]
          ++ [Event.redirect "mobile_guide/"]
    ∧ (start { userAgent := "iPhone" }).2 = Outcome.completed
    ∧ Event.invokeLoadConfig ∉ (start { userAgent := "iPhone" }).1
    ∧ Event.invokeLoadOlm ∉ (start { userAgent := "iPhone" }).1
    ∧ Event.invokePreparePlatform ∉ (start { userAgent := "iPhone" }).1
    ∧ (∀ p, Event.invokeLoadApp p ∉ (start { userAgent := "iPhone" }).1) :=
  claim_C5 { userAgent := "iPhone" } rfl rfl rfl (Or.inl (by decide)) (by decide)

theorem C6_core (env : Env) (ev : Event)
    (himp : env.initImportOk = true)
    (hred : redirectTaken env = false)
    (hgate : acceptBrowserOf env = true ∨ env.userConfirms = true)
    (hchc : configHardCheck env = ([ev], InnerResult.returned))
    (hev : ∀ p, ev ≠ Event.invokeLoadApp p) :
    (start env).2 = Outcome.completed
    ∧ ev ∈ (start env).1
    ∧ (∀ p, Event.invokeLoadApp p ∉ (start env).1) := by
  have hgp : (gatePath env).2 = InnerResult.returned ∧ ev ∈ (gatePath env).1 := by
    unfold gatePath
    cases hA : acceptBrowserOf env with
    | true => rw [if_pos rfl, hchc]; exact ⟨rfl, List.mem_singleton.mpr rfl⟩
    | false =>
      have hU : env.userConfirms = true := by
        rcases hgate with h | h
        · rw [hA] at h; exact absurd h (by simp)
        · exact h
      rw [if_neg (by simp [hA]), if_pos hU, hchc]
      exact ⟨rfl, List.mem_append.mpr (Or.inr (List.mem_singleton.mpr rfl))⟩
  have h2 : (startInner env).2 = InnerResult.returned := by
    rw [startInner_no_redirect env hred]
    exact hgp.1
  have htr : start env = ((startInner env).1, Outcome.completed) := by
    rw [start_eq env himp, h2]
    simp
  refine ⟨by rw [htr], ?_, ?_⟩
  · rw [htr, startInner_no_redirect env hred]
    exact List.mem_append.mpr (Or.inr hgp.2)
  · intro p hmem
    rw [htr] at hmem
    rcases mem_startInner hmem with ⟨e, he⟩ | he | hp | hg
    · simp at he
    · simp at he
    · rcases mem_preloadEvents hp with ⟨e, he⟩ | he | he | he | he | he | he | he <;>
        simp at he
    · rcases mem_gatePath hg with hx | hx | hx | hx
      · rw [hchc] at hx
        exact hev p (List.mem_singleton.mp hx).symm
      · rcases mem_gateConfirmEvents hx with he | he | he | he <;> simp at he
      · simp at hx
      · simp at hx

/-- C4: the settle helper awaits the already-started tasks in list
order, logs exactly the rejections (in list order), never propagates
a rejection and always fulfills; for `[T1 rejects, T2 fulfills,
T3 rejects]` it fulfills, logs both failures in order, and T2's
settled result is still retrievable from the one-shot future
afterward. -/
theorem claim_C4 :
    (∀ (tasks : List (Except JsError Nat)),
      (settled tasks).2 = Except.ok ()
      ∧ (settled tasks).1 = tasks.filterMap errPart)
    ∧ (∀ (e1 e3 : JsError) (v : Nat),
      settled [Except.error e1, Except.ok v, Except.error e3]
        = ([e1, e3], Except.ok ())
      ∧ [Except.error e1, Except.ok v,
          Except.error e3].getD 1 (Except.ok 0) = Except.ok v) := by
  refine ⟨fun tasks => ?_, fun e1 e3 v => ⟨?_, rfl⟩⟩
  · rw [settled_eq]; exact ⟨rfl, rfl⟩
  · rw [settled_eq]; simp [errPart]

/-- C6: when the strictly-awaited config load rejects (and the run
reaches the config hard-check: the init import succeeded, the mobile
redirect did not fire, and the compatibility gate was passed or
confirmed), the sequence terminates normally without ever invoking
`loadApp`, and the surface shown is selected by the error's kind: for
a rejection carrying a `SyntaxError` it is the two-part surface
(generic misconfiguration line plus the line built from the parser's
raw message), for any other config error it is the generic
could-not-load-configuration message. -/
theorem claim_C6 (env : Env) (er : JsError)
    (hc : env.loadConfigResult = Except.error er)
    (himp : env.initImportOk = true)
    (hred : redirectTaken env = false)
    (hgate : acceptBrowserOf env = true ∨ env.userConfirms = true) :
    (start env).2 = Outcome.completed
    ∧ (∀ p, Event.invokeLoadApp p ∉ (start env).1)
    ∧ ((∃ m, er.err = some (SubErr.syn m)
          ∧ Event.showError misconfiguredTitle [invalidJsonLine, parserLine m]
              ∈ (start env).1)
       ∨ ((∀ m, er.err ≠ some (SubErr.syn m))
          ∧ Event.showError unableToLoadConfigLine [] ∈ (start env).1)) := by
  cases hm : er.err with
  | some se =>
    cases se with
    | syn m =>
      have hchc : configHardCheck env
          = ([Event.showError misconfiguredTitle [invalidJsonLine, parserLine m]],
             InnerResult.returned) := by
        unfold configHardCheck
        rw [hc]
        simp [hm]
      obtain ⟨h1, h2, h3⟩ := C6_core env _ himp hred hgate hchc (by simp)
      exact ⟨h1, h3, Or.inl ⟨m, rfl, h2⟩⟩
    | other =>
      have hchc : configHardCheck env
          = ([Event.showError unableToLoadConfigLine []], InnerResult.returned) := by
        unfold configHardCheck
        rw [hc]
        simp [hm]
      obtain ⟨h1, h2, h3⟩ := C6_core env _ himp hred hgate hchc (by simp)
      exact ⟨h1, h3, Or.inr ⟨by simp [hm], h2⟩⟩
  | none =>
    have hchc : configHardCheck env
        = ([Event.showError unableToLoadConfigLine []], InnerResult.returned) := by
      unfold configHardCheck
      rw [hc]
      simp [hm]
    obtain ⟨h1, h2, h3⟩ := C6_core env _ himp hred hgate hchc (by simp)
    exact ⟨h1, h3, Or.inr ⟨by simp [hm], h2⟩⟩

/-- Witness for C6: a config load rejecting with a `SyntaxError`
whose parser message is nonempty, on a supported browser. -/
theorem claim_C6_witness :
    (start { loadConfigResult :=
        Except.error { err := some (SubErr.syn "Unexpected token") } }).2
      = Outcome.completed
    ∧ (∀ p, Event.invokeLoadApp p
        ∉ (start { loadConfigResult :=
            Except.error { err := some (SubErr.syn "Unexpected token") } }).1)
    ∧ ((∃ m, JsError.err { err := some (SubErr.syn "Unexpected token") }
          = some (SubErr.syn m)
          ∧ Event.showError misconfiguredTitle [invalidJsonLine, parserLine m]
            ∈ (start { loadConfigResult :=
                Except.error { err := some (SubErr.syn "Unexpected token") } }).1)
       ∨ ((∀ m, JsError.err { err := some (SubErr.syn "Unexpected token") }
            ≠ some (SubErr.syn m))
          ∧ Event.showError unableToLoadConfigLine []
            ∈ (start { loadConfigResult :=
                Except.error { err := some (SubErr.syn "Unexpected token") } }).1)) :=
  claim_C6 _ _ rfl rfl (by decide) (Or.inl (by decide))

/-- C7: every error thrown by the inner stage sequence (after the
init-module import succeeded) is caught exactly once at the outer
boundary: the inner trace itself never contains an outer-catch log,
and the run completes with the outer log plus the generic
unexpected-error surface appended, whose explanatory line is the
error's attached (truthy) `translatedMessage` when present, else the
fixed default line. -/
theorem claim_C7 (env : Env) (e : JsError)
    (himp : env.initImportOk = true)
    (hthrew : (startInner env).2 = InnerResult.threw e) :
    (start env).1 = (startInner env).1
        ++ [Event.outerLog e,
            Event.showError misconfiguredTitle
              [jsOrDefault e.translatedMessage unexpectedErrorLine]]
    ∧ (start env).2 = Outcome.completed
    ∧ (∀ e2, Event.outerLog e2 ∉ (startInner env).1) := by
  have htr : start env
      = ((startInner env).1 ++ catchEvents e, Outcome.completed) := by
    rw [start_eq env himp, hthrew]
  refine ⟨by rw [htr]; rfl, by rw [htr], ?_⟩
  intro e2 hmem
  rcases mem_startInner hmem with ⟨e3, he⟩ | he | hp | hg
  · simp at he
  · simp at he
  · rcases mem_preloadEvents hp with ⟨e3, he⟩ | he | he | he | he | he | he | he <;>
      simp at he
  · rcases mem_gatePath hg with hx | hx | hx | hx
    · rcases mem_configHardCheck hx with ⟨t, ms, he⟩ | hcp
      · simp at he
      · rcases mem_criticalPath hcp with ⟨e3, he⟩ | he <;> simp at he
    · rcases mem_gateConfirmEvents hx with he | he | he | he <;> simp at he
    · simp at hx
    · simp at hx

/-- Witness for C7: the Olm load rejects with an attached
`translatedMessage` on an otherwise successful run. -/
theorem claim_C7_witness :
    (start { loadOlmResult :=
        Except.error { translatedMessage := some "Olm failed" } }).1
      = (startInner { loadOlmResult :=
          Except.error { translatedMessage := some "Olm failed" } }).1
        ++ [Event.outerLog { translatedMessage := some "Olm failed" },
            Event.showError misconfiguredTitle
              [jsOrDefault (JsError.translatedMessage
                  { translatedMessage := some "Olm failed" })
                unexpectedErrorLine]]
    ∧ (start { loadOlmResult :=
        Except.error { translatedMessage := some "Olm failed" } }).2
      = Outcome.completed
    ∧ (∀ e2, Event.outerLog e2
        ∉ (startInner { loadOlmResult :=
            Except.error { translatedMessage := some "Olm failed" } }).1) :=
  claim_C7 _ _ rfl (by decide)

theorem redirect_not_mem (env : Env) (hred : redirectTaken env = false) (s : String) :
    Event.redirect s ∉ (start env).1 := by
  intro hmem
  rcases mem_start hmem with h | ⟨e, h⟩
  · rw [startInner_no_redirect env hred] at h
    rcases List.mem_append.mp h with h | h
    · rcases List.mem_append.mp h with h | h
      · obtain ⟨e, he⟩ := mem_settledLogs_shape h
        simp at he
      · rcases mem_preloadEvents h with ⟨e, he⟩ | he | he | he | he | he | he | he <;>
          simp at he
    · rcases mem_gatePath h with hx | hx | hx | hx
      · rcases mem_configHardCheck hx with ⟨t, ms, he⟩ | hcp
        · simp at he
        · rcases mem_criticalPath hcp with ⟨e, he⟩ | he <;> simp at he
      · rcases mem_gateConfirmEvents hx with he | he | he | he <;> simp at he
      · simp at hx
      · simp at hx
  · rcases mem_catchEvents h with he | he <;> simp at he

theorem loadApp_forwarded (env : Env) (p : Params)
    (h : Event.invokeLoadApp p ∈ (start env).1) : p = env.fragparts.params := by
  rcases mem_start h with h | ⟨e, h⟩
  · rcases mem_startInner h with ⟨e, he⟩ | he | hp | hg
    · simp at he
    · simp at he
    · rcases mem_preloadEvents hp with ⟨e, he⟩ | he | he | he | he | he | he | he <;>
        simp at he
    · rcases mem_gatePath hg with hx | hx | hx | hx
      · rcases mem_configHardCheck hx with ⟨t, ms, he⟩ | hcp
        · simp at he
        · rcases mem_criticalPath hcp with ⟨e, he⟩ | he
          · simp at he
          · simpa using he
      · rcases mem_gateConfirmEvents hx with he | he | he | he <;> simp at he
      · simp at hx
      · simp at hx
  · rcases mem_catchEvents h with he | he <;> simp at he

/-- C8 counterexample: a parsed fragment whose client-secret parameter
is present (with the empty-string value, which JS treats as falsy) on
a mobile user agent with no opt-out cookie: the redirect branch IS
taken, refuting the claim that presence of the parameter always
suppresses the redirect. -/
theorem claim_C8_counterexample :
    envSecretEmpty.fragparts.params.client_secret.isSome = true
    ∧ Event.redirect "mobile_guide/" ∈ (start envSecretEmpty).1 := by
  decide

/-- C8 (amended): for every parsed fragment in which the client-secret
parameter is present with a non-empty (truthy) value, or in which a
non-empty routing location is present, the mobile redirect branch is
never taken, and the parsed fragment parameters are forwarded
verbatim as the argument of any app-load handoff. -/
theorem claim_C8 (env : Env)
    (h : truthyOpt env.fragparts.params.client_secret = true
      ∨ env.fragparts.location.length > 0) :
    redirectTaken env = false
    ∧ (∀ s, Event.redirect s ∉ (start env).1)
    ∧ (∀ p, Event.invokeLoadApp p ∈ (start env).1 → p = env.fragparts.params) := by
  have hprev : preventRedirectOf env.fragparts = true := by
    unfold preventRedirectOf
    rcases h with h | h <;> simp [h]
  have hred : redirectTaken env = false := by
    unfold redirectTaken
    simp [hprev]
  exact ⟨hred, fun s => redirect_not_mem env hred s,
    fun p hp => loadApp_forwarded env p hp⟩

/-- Witness for C8 at a fragment carrying a non-empty client secret. -/
theorem claim_C8_witness :
    redirectTaken envSecretSet = false
    ∧ (∀ s, Event.redirect s ∉ (start envSecretSet).1)
    ∧ (∀ p, Event.invokeLoadApp p ∈ (start envSecretSet).1
        → p = envSecretSet.fragparts.params) :=
  claim_C8 envSecretSet (Or.inl (by decide))

/-- C9: when `start()`'s top-level promise rejects outside its inner
try/catch, the fatal presenter attaches a sandboxed full-viewport
iframe whose source is the incompatible-browser static page exactly
when the feature verdict failed and the generic unable-to-load static
page exactly when it passed. -/
theorem claim_C9 (env : Env) (e : JsError)
    (hfatal : (start env).2 = Outcome.fatal e) :
    (startWithCatch env).2 = some (presentFatal (supportedBrowserOf env))
    ∧ (presentFatal (supportedBrowserOf env)).sandbox = ""
    ∧ (presentFatal (supportedBrowserOf env)).width = "100%"
    ∧ (presentFatal (supportedBrowserOf env)).height = "100%"
    ∧ (presentFatal (supportedBrowserOf env)).position = "absolute"
    ∧ ((presentFatal (supportedBrowserOf env)).src
        = "static/incompatible-browser.html" ↔ supportedBrowserOf env = false)
    ∧ ((presentFatal (supportedBrowserOf env)).src
        = "static/unable-to-load.html" ↔ supportedBrowserOf env = true) := by
  refine ⟨?_, rfl, rfl, rfl, rfl, ?_, ?_⟩
  · unfold startWithCatch
    rw [hfatal]
  · unfold presentFatal
    cases hs : supportedBrowserOf env <;> simp
  · unfold presentFatal
    cases hs : supportedBrowserOf env <;> simp

/-- Witness for C9: the dynamic import of the init module fails on an
unsupported browser. -/
theorem claim_C9_witness :
    (startWithCatch envImportFail).2
      = some (presentFatal (supportedBrowserOf envImportFail))
    ∧ (presentFatal (supportedBrowserOf envImportFail)).sandbox = ""
    ∧ (presentFatal (supportedBrowserOf envImportFail)).width = "100%"
    ∧ (presentFatal (supportedBrowserOf envImportFail)).height = "100%"
    ∧ (presentFatal (supportedBrowserOf envImportFail)).position = "absolute"
    ∧ ((presentFatal (supportedBrowserOf envImportFail)).src
        = "static/incompatible-browser.html"
        ↔ supportedBrowserOf envImportFail = false)
    ∧ ((presentFatal (supportedBrowserOf envImportFail)).src
        = "static/unable-to-load.html"
        ↔ supportedBrowserOf envImportFail = true) :=
  claim_C9 envImportFail {} rfl

/-- C10: on an unsupported browser with no `localStorage`, the stored
acknowledgment is treated as unset at the compatibility gate
(`acceptBrowser` stays false); when the user then confirms on the
incompatible-browser surface, the run resumes and reaches the
app-load handoff without ever writing the acknowledgment flag —
storage is untouched on this path. -/
theorem claim_C10 (env : Env)
    (hsup : supportedBrowserOf env = false)
    (hls : env.hasLocalStorage = false)
    (hconf : env.userConfirms = true)
    (himp : env.initImportOk = true)
    (hred : redirectTaken env = false)
    (hcfg : env.loadConfigResult = Except.ok ())
    (holm : env.loadOlmResult = Except.ok ())
    (hskin : env.loadSkinResult = Except.ok ())
    (htheme : env.loadThemeResult = Except.ok ())
    (hlang : env.loadLanguageResult = Except.ok ()) :
    acceptBrowserOf env = false
    ∧ Event.showIncompatibleBrowser ∈ (start env).1
    ∧ Event.invokeLoadApp env.fragparts.params ∈ (start env).1
    ∧ Event.setAcceptsUnsupportedBrowser ∉ (start env).1 := by
  have hacc : acceptBrowserOf env = false := by
    unfold acceptBrowserOf
    simp [hsup, hls]
  have hchc : configHardCheck env = criticalPath env := by
    unfold configHardCheck
    rw [hcfg]
  have hcp1 : (criticalPath env).1
      = settledLogs [env.setupLogStorageResult]
        ++ [Event.invokeLoadApp env.fragparts.params] := by
    unfold criticalPath
    rw [holm, hskin, htheme, hlang]
    cases happ : env.loadAppResult <;> simp
  have hgc : gateConfirmEvents env
      = [Event.logBrowserMissingFeatures, Event.showIncompatibleBrowser,
         Event.logUserAccepts] := by
    simp [gateConfirmEvents, hls]
  have hgp1 : (gatePath env).1
      = gateConfirmEvents env ++ (configHardCheck env).1 := by
    unfold gatePath
    rw [if_neg (by simp [hacc]), if_pos hconf]
  have hpre : ∀ x : Event, x ∈ (startInner env).1 → x ∈ (start env).1 := by
    intro x hx
    rw [start_eq env himp]
    cases (startInner env).2 <;> simp [hx]
  refine ⟨hacc, ?_, ?_, ?_⟩
  · apply hpre
    rw [startInner_no_redirect env hred]
    refine List.mem_append.mpr (Or.inr ?_)
    rw [hgp1, hgc]
    simp
  · apply hpre
    rw [startInner_no_redirect env hred]
    refine List.mem_append.mpr (Or.inr ?_)
    rw [hgp1, hchc, hcp1]
    simp
  · intro hmem
    rcases mem_start hmem with h | ⟨e, h⟩
    · rw [startInner_no_redirect env hred] at h
      rcases List.mem_append.mp h with h | h
      · rcases List.mem_append.mp h with h | h
        · obtain ⟨e, he⟩ := mem_settledLogs_shape h
          simp at he
        · rcases mem_preloadEvents h with ⟨e, he⟩ | he | he | he | he | he | he | he <;>
            simp at he
      · rw [hgp1, hgc] at h
        rcases List.mem_append.mp h with h | h
        · simp at h
        · rw [hchc, hcp1] at h
          rcases List.mem_append.mp h with h | h
          · obtain ⟨e, he⟩ := mem_settledLogs_shape h
            simp at he
          · simp at h
    · rcases mem_catchEvents h with he | he <;> simp at he

/-- Witness for C10: an unsupported browser (one failing feature), no
`localStorage`, a confirming user, and otherwise successful loads. -/
theorem claim_C10_witness :
    acceptBrowserOf envNoStorage = false
    ∧ Event.showIncompatibleBrowser ∈ (start envNoStorage).1
    ∧ Event.invokeLoadApp envNoStorage.fragparts.params ∈ (start envNoStorage).1
    ∧ Event.setAcceptsUnsupportedBrowser ∉ (start envNoStorage).1 :=
  claim_C10 envNoStorage (by decide) rfl rfl rfl (by decide) rfl rfl rfl rfl rfl
